import Mathlib

/-!
Shallow embedding of the Trip-Planner-App (`src/app.py`) in Lean 4, together
with theorems settling the specification's claims about it.

Modelling conventions:
* Python strings are Lean `String`s.  The Python primitives used by the app
  (`str.split` on a one-character separator, `str.strip`, `str.replace` of a
  single character, `"/".join`) are re-implemented structurally over the
  character list so that witnesses evaluate inside the kernel.  `str.strip`
  is modelled over ASCII whitespace.
* Python `float` values (only the budget and the currency rates) are modelled
  as rationals `ℚ`; Python `round` (banker's rounding) is `pyRound`.
  The decimal rendering of a float inside an f-string is abstracted by
  `toString` on `ℚ`; no claim depends on that rendering.
* The external Gemini model is an oracle `llm : String → LLMResult`: for a
  given prompt it either returns text, returns a response with no parts, or
  raises an exception.  `get_llm_response` mirrors the `try/except` wrapper.
* The `/generate` endpoint is embedded from the point where the form fields
  have been parsed (a `TripForm`); its result is either a 400 error or the
  JSON payload as an ordered list of key/value pairs.  Alongside the result
  the embedding threads the list of prompts sent to the oracle, in order, so
  that "no calls are issued" and "the remaining prompts are still issued"
  are statable.
-/

set_option linter.unusedVariables false

/-- Python `s.split(c)` for a single-character separator `c`, over the
character list: `""` splits to `[""]`, separators at the ends produce empty
segments, exactly as in Python. -/
def splitCharAux (c : Char) : List Char → List Char → List (List Char)
  | [], acc => [acc.reverse]
  | x :: xs, acc =>
      if x = c then acc.reverse :: splitCharAux c xs []
      else splitCharAux c xs (x :: acc)

/-- Python `s.split(c)` (single-character separator). -/
def splitOnChar (c : Char) (s : String) : List String :=
  (splitCharAux c s.data []).map String.mk

/-- Python `str.strip()` restricted to ASCII whitespace: drop leading and
trailing whitespace characters. -/
def pyStrip (s : String) : String :=
  String.mk (((s.data.dropWhile Char.isWhitespace).reverse.dropWhile
      Char.isWhitespace).reverse)

/-- Python `s.replace(' ', '+')`: a character-wise map, since the pattern is
a single character. -/
def plusEncode (s : String) : String :=
  String.mk (s.data.map fun ch => if ch = ' ' then '+' else ch)

/-- Python `sep.join(xs)`. -/
def joinWith (sep : String) : List String → String
  | [] => ""
  | [x] => x
  | x :: y :: xs => x ++ sep ++ joinWith sep (y :: xs)

/-- `generate_google_maps_link(city, locations)` from `src/app.py` lines
55-61: empty location list gives `""`; otherwise the base directions URL
followed by the `'/'`-join of `loc.replace(' ','+') + "," + city.replace(' ','+')`
for each location. -/
def generate_google_maps_link (city : String) (locations : List String) : String :=
  if locations = [] then ""
  else
    "https://www.google.com/maps/dir/" ++
      joinWith "/" (locations.map fun loc => plusEncode loc ++ "," ++ plusEncode city)

/-- The location parsing on line 141 of `src/app.py`:
`[loc.strip() for loc in locations_string.split('|') if loc.strip()]`. -/
def parse_locations (s : String) : List String :=
  (splitOnChar '|' s).filterMap fun loc =>
    if pyStrip loc = "" then none else some (pyStrip loc)

/-- The location parsing as the specification words it: split on the single
character `'|'`, trim whitespace from each segment, discard segments that are
empty after trimming, preserving order and duplicates.  Compared with
`parse_locations` for claim C6. -/
def parse_locations_spec (s : String) : List String :=
  ((splitOnChar '|' s).map pyStrip).filter fun t => !(t == "")

/-- Outcome of one call to the external generation model: text, a response
with no parts, or a raised exception. -/
inductive LLMResult where
  | ok (text : String)
  | emptyParts
  | exn
deriving DecidableEq

/-- Fallback returned by `get_llm_response` when the response has no parts
(line 49 of `src/app.py`). -/
def emptyPartsFallback : String :=
  "I'm sorry, I couldn't generate a response for that. Please try again."

/-- Fallback returned by `get_llm_response` when the API call raises
(line 53 of `src/app.py`). -/
def apiErrorFallback : String :=
  "An error occurred while generating the response. Please check the server logs."

/-- `get_llm_response(prompt)` from `src/app.py` lines 44-53, over an oracle
standing for the Gemini model. -/
def get_llm_response (llm : String → LLMResult) (prompt : String) : String :=
  match llm prompt with
  | .ok text => text
  | .emptyParts => emptyPartsFallback
  | .exn => apiErrorFallback

/-- One model call together with the prompt log: the section text, and the
log extended with the prompt that was issued. -/
def callLLM (llm : String → LLMResult) (prompt : String) (log : List String) :
    String × List String :=
  (get_llm_response llm prompt, log ++ [prompt])

/-- Prompt for the high-level plan (`src/app.py` lines 107-111). -/
def hlPrompt (ctx currency : String) : String :=
  "Generate a high-level, exciting travel plan summary for the following trip: "
    ++ ctx ++ " IMPORTANT: All cost estimations and monetary values in your response MUST be in "
    ++ currency
    ++ ". Write a captivating one-paragraph summary. Then, list 3-4 key attractions suitable for the group."

/-- Prompt for the day-by-day itinerary (`src/app.py` lines 113-119); it
interpolates the high-level plan text. -/
def diPrompt (high_level_plan ctx currency : String) : String :=
  "Based on this plan: '" ++ high_level_plan
    ++ "', create a detailed day-by-day itinerary. Here are the trip details: "
    ++ ctx ++ " IMPORTANT: Frame all budget advice and cost mentions in " ++ currency
    ++ ". For each day, start with a bolded heading like '**Day 1: Arrival and Exploration**'. Then, detail the plan for Morning, Afternoon, and Evening, considering the group's composition and the travel date for seasonal relevance."

/-- Prompt for dining recommendations (`src/app.py` lines 121-126). -/
def dinePrompt (city ctx currency : String) : String :=
  "Based on an itinerary for a trip to " ++ city
    ++ ", recommend dining options. The trip details are: " ++ ctx
    ++ " Include one budget-friendly, one mid-range, and one local favorite spot. Briefly describe why each is suitable and provide a general price range in "
    ++ currency ++ "."

/-- Prompt for the packing list (`src/app.py` lines 128-131). -/
def packPrompt (ctx : String) : String :=
  "Generate a smart, bulleted packing list for this trip: " ++ ctx
    ++ " Consider the destination's climate around the travel date and common activities there."

/-- Prompt for the fun fact (`src/app.py` lines 133-135). -/
def ffPrompt (city : String) : String :=
  "Tell me one surprising and fun fact about " ++ city
    ++ ". Start directly with the fact, no preamble."

/-- Prompt for location extraction (`src/app.py` lines 137-140); it
interpolates the day-by-day itinerary text. -/
def locPrompt (daily_itinerary : String) : String :=
  "From this itinerary: '" ++ daily_itinerary
    ++ "', extract up to 8 key place names (attractions, specific restaurants). Do not explain. Just give the names separated only by a vertical bar '|'. Example: Eiffel Tower|Louvre Museum|Seine River Cruise"

/-- The six generated sections of the response payload. -/
structure GenOutput where
  high_level_plan : String
  daily_itinerary : String
  dining_recommendations : String
  packing_list : String
  fun_fact : String
  maps_link : String
deriving DecidableEq

/-- The prompt chain of `src/app.py` lines 107-142: six sequential model
calls, each later prompt interpolating earlier text where the source does,
then the location parse and the maps link.  Returns the sections and the
ordered list of prompts issued. -/
def runChain (llm : String → LLMResult) (city ctx currency : String) :
    GenOutput × List String :=
  let r1 := callLLM llm (hlPrompt ctx currency) []
  let high_level_plan := r1.1
  let r2 := callLLM llm (diPrompt high_level_plan ctx currency) r1.2
  let daily_itinerary := r2.1
  let r3 := callLLM llm (dinePrompt city ctx currency) r2.2
  let dining_recommendations := r3.1
  let r4 := callLLM llm (packPrompt ctx) r3.2
  let packing_list := r4.1
  let r5 := callLLM llm (ffPrompt city) r4.2
  let fun_fact := r5.1
  let r6 := callLLM llm (locPrompt daily_itinerary) r5.2
  let locations_string := r6.1
  let locations_list := parse_locations locations_string
  let maps_link := generate_google_maps_link city locations_list
  (⟨high_level_plan, daily_itinerary, dining_recommendations, packing_list,
      fun_fact, maps_link⟩, r6.2)

/-- The parsed form fields of a `/generate` request (`src/app.py` lines
74-84), after the numeric conversions of the `try` block succeeded.  `city`
and `journey_date` are `none` when the field is absent (Python `form.get`
returns `None`). -/
structure TripForm where
  city : Option String
  budget : ℚ
  currency : String
  days : Int
  males : Int
  females : Int
  journey_date : Option String
  trip_type : String
  notes : String

/-- Python truthiness of `not x` for an optional string: true when the field
is absent or the empty string. -/
def optBlank : Option String → Bool
  | none => true
  | some s => s == ""

/-- The validation condition on line 90 of `src/app.py`:
`not city or budget_original <= 0 or days <= 0 or total_people <= 0 or not journey_date`. -/
def formInvalid (form : TripForm) : Bool :=
  optBlank form.city || decide (form.budget ≤ 0) || decide (form.days ≤ 0)
    || decide (form.males + form.females ≤ 0) || optBlank form.journey_date

/-- The 400 message on line 91 of `src/app.py`. -/
def validationErrorMsg : String :=
  "Please fill out all required fields: city, budget, dates, and number of travelers."

/-- The static rate table of `src/app.py` lines 39-41 (floats as rationals). -/
def CURRENCY_RATES_TO_USD : List (String × ℚ) :=
  [("USD", 1), ("INR", 83.5), ("EUR", 0.92), ("GBP", 0.79)]

/-- `CURRENCY_RATES_TO_USD.get(currency, 1.0)` (line 94): dictionary lookup
with default `1.0`. -/
def lookupRate (rates : List (String × ℚ)) (currency : String) : ℚ :=
  (rates.lookup currency).getD 1

/-- Python `round` on the rational model: round half to even. -/
def pyRound (q : ℚ) : Int :=
  let f := ⌊q⌋
  let r := q - f
  if r < 1/2 then f
  else if 1/2 < r then f + 1
  else if f % 2 = 0 then f else f + 1

/-- The prompt context built on lines 98-104 of `src/app.py`.  The decimal
rendering of the float budget is abstracted by `toString` on `ℚ`. -/
def mkPromptContext (trip_type city : String) (days : Int) (journey_date : String)
    (total_people males females : Int) (budget : ℚ) (currency notes : String) :
    String :=
  "The trip is a " ++ trip_type ++ " journey to " ++ city ++ " for "
    ++ toString days ++ " days, starting around " ++ journey_date ++ ". "
    ++ "The group consists of " ++ toString total_people ++ " people ("
    ++ toString males ++ " male(s) and " ++ toString females ++ " female(s)). "
    ++ "Their total budget is " ++ toString budget ++ " " ++ currency ++ ". "
    ++ (if notes == "" then ""
        else "The user has provided the following specific requests: '" ++ notes
          ++ "'. Please try to incorporate these.")

/-- Result of the `/generate` endpoint: a 400 error payload or the JSON
object as an ordered list of key/value pairs (all values are strings by
construction, as `jsonify` receives only strings). -/
inductive GenerateResult where
  | badRequest (message : String)
  | okJson (fields : List (String × String))
deriving DecidableEq

/-- Whether the endpoint answered with a 400 error. -/
def GenerateResult.isBad : GenerateResult → Bool
  | .badRequest _ => true
  | .okJson _ => false

/-- The `/generate` handler of `src/app.py` lines 69-152, from the point
where form parsing succeeded, over an explicit rate table and model oracle.
Returns the HTTP result and the ordered list of prompts issued. -/
def generateCore (rates : List (String × ℚ)) (llm : String → LLMResult)
    (form : TripForm) : GenerateResult × List String :=
  let city := form.city.getD ""
  let notes := pyStrip form.notes
  let total_people := form.males + form.females
  if formInvalid form then
    (.badRequest validationErrorMsg, [])
  else
    let conversion_rate := lookupRate rates form.currency
    let budget_usd := pyRound (form.budget / conversion_rate)
    let ctx := mkPromptContext form.trip_type city form.days
      (form.journey_date.getD "") total_people form.males form.females
      form.budget form.currency notes
    let r := runChain llm city ctx form.currency
    (.okJson [("high_level_plan", r.1.high_level_plan),
              ("daily_itinerary", r.1.daily_itinerary),
              ("dining_recommendations", r.1.dining_recommendations),
              ("packing_list", r.1.packing_list),
              ("fun_fact", r.1.fun_fact),
              ("maps_link", r.1.maps_link)], r.2)

/-- The `/generate` handler with the app's own rate table. -/
def generate (llm : String → LLMResult) (form : TripForm) :
    GenerateResult × List String :=
  generateCore CURRENCY_RATES_TO_USD llm form

/-- The tip list of `src/app.py` lines 23-31. -/
def LOADING_TIPS : List String :=
  ["Pro Tip: Roll your clothes to save space in your luggage...",
   "Did you know? Booking flights on a Tuesday can sometimes be cheaper...",
   "Remember to download offline maps of your destination...",
   "Learning a few basic phrases in the local language goes a long way...",
   "Don't forget to inform your bank about your travel plans...",
   "Packing a portable charger can be a lifesaver...",
   "Always leave a little extra room in your suitcase for souvenirs..."]

/-- One step of `itertools.cycle`: yield from the remaining elements, and
when they are exhausted start over from the saved list. -/
def cycleNext (saved cur : List String) : String × List String :=
  match cur with
  | [] =>
      match saved with
      | [] => ("", [])
      | h :: t => (h, t)
  | h :: t => (h, t)

/-- State of the tip cycle after the `k`-th call (0-indexed): the tip
returned by that call and the remaining elements. -/
def tipCalls (saved : List String) : Nat → String × List String
  | 0 => cycleNext saved saved
  | k + 1 => cycleNext saved (tipCalls saved k).2

/-- The `/loading_text` endpoint (`src/app.py` lines 33-36): the tip returned
by the `k`-th call of the process. -/
def loading_text (k : Nat) : String :=
  (tipCalls LOADING_TIPS k).1

/-! ## Theorems -/

/-- The returned tip and remaining state of the tip cycle after the `k`-th
call: element `k % 7` is returned and the elements after it remain. -/
theorem tipCalls_loading_spec (k : Nat) :
    tipCalls LOADING_TIPS k =
      (LOADING_TIPS.getD (k % 7) "", LOADING_TIPS.drop (k % 7 + 1)) := by
  induction k with
  | zero => rfl
  | succ k ih =>
      have hstep : tipCalls LOADING_TIPS (k + 1)
          = cycleNext LOADING_TIPS (tipCalls LOADING_TIPS k).2 := rfl
      rw [hstep, ih]
      have h7 : k % 7 = 0 ∨ k % 7 = 1 ∨ k % 7 = 2 ∨ k % 7 = 3 ∨ k % 7 = 4
          ∨ k % 7 = 5 ∨ k % 7 = 6 := by omega
      rcases h7 with h | h | h | h | h | h | h
      · rw [h, show (k + 1) % 7 = 1 by omega]; rfl
      · rw [h, show (k + 1) % 7 = 2 by omega]; rfl
      · rw [h, show (k + 1) % 7 = 3 by omega]; rfl
      · rw [h, show (k + 1) % 7 = 4 by omega]; rfl
      · rw [h, show (k + 1) % 7 = 5 by omega]; rfl
      · rw [h, show (k + 1) % 7 = 6 by omega]; rfl
      · rw [h, show (k + 1) % 7 = 0 by omega]; rfl

/-- C8: the tip endpoint is a deterministic round-robin over its fixed list
of 7 tips: the `k`-th call returns entry `k % 7`, and seven calls later the
same tip comes around again (so the call after the last entry returns the
first entry). -/
theorem loading_text_round_robin (k : Nat) :
    loading_text k = LOADING_TIPS.getD (k % 7) "" ∧
    loading_text (k + 7) = loading_text k := by
  unfold loading_text
  rw [tipCalls_loading_spec, tipCalls_loading_spec, Nat.add_mod_right]
  exact ⟨rfl, rfl⟩

/-- C1: for a non-empty list of non-empty location names and any city name,
`generate_google_maps_link` returns the base directions URL followed by the
`'/'`-join of one segment per location, each segment being the plus-encoded
place name joined with the plus-encoded city by a comma; the number of
segments equals the number of locations. -/
theorem maps_link_segments (city : String) (locs : List String)
    (hne : ∀ l ∈ locs, l ≠ "") (h : locs ≠ []) :
    generate_google_maps_link city locs =
      "https://www.google.com/maps/dir/" ++
        joinWith "/" (locs.map fun loc => plusEncode loc ++ "," ++ plusEncode city)
    ∧ (locs.map fun loc => plusEncode loc ++ "," ++ plusEncode city).length
        = locs.length := by
  constructor
  · unfold generate_google_maps_link
    rw [if_neg h]
  · exact List.length_map _ _

/-- Witness for C1 at a concrete two-location input. -/
theorem maps_link_segments_witness :
    (∀ l ∈ ["Central Park", "The Met"], l ≠ "") ∧
    (["Central Park", "The Met"] : List String) ≠ [] ∧
    generate_google_maps_link "New York" ["Central Park", "The Met"] =
      "https://www.google.com/maps/dir/" ++
        joinWith "/" ((["Central Park", "The Met"]).map
          fun loc => plusEncode loc ++ "," ++ plusEncode "New York") :=
  ⟨by decide, by decide,
    (maps_link_segments "New York" ["Central Park", "The Met"]
      (by decide) (by decide)).1⟩

/-- C6: the location list parsed by the endpoint equals the result of
splitting the model's reply on the single character `'|'`, trimming
whitespace from each segment and discarding the segments that are empty
after trimming, in order and with duplicates kept (the spec-worded
`parse_locations_spec`). -/
theorem parse_locations_eq_spec (s : String) :
    parse_locations s = parse_locations_spec s := by
  unfold parse_locations parse_locations_spec
  induction splitOnChar '|' s with
  | nil => rfl
  | cons head tail ih =>
      simp only [List.filterMap_cons, List.map_cons, List.filter_cons]
      by_cases h : pyStrip head = ""
      · simp [h, ih]
      · simp [h, ih]

/-- C9: a currency code not present in the static rate table gets the
fallback conversion rate 1. -/
theorem unknown_currency_rate_one (c : String)
    (h : c ∉ ["USD", "INR", "EUR", "GBP"]) :
    lookupRate CURRENCY_RATES_TO_USD c = 1 := by
  have h1 : (c == "USD") = false :=
    beq_eq_false_iff_ne.mpr (by intro hc; exact h (by simp [hc]))
  have h2 : (c == "INR") = false :=
    beq_eq_false_iff_ne.mpr (by intro hc; exact h (by simp [hc]))
  have h3 : (c == "EUR") = false :=
    beq_eq_false_iff_ne.mpr (by intro hc; exact h (by simp [hc]))
  have h4 : (c == "GBP") = false :=
    beq_eq_false_iff_ne.mpr (by intro hc; exact h (by simp [hc]))
  simp [lookupRate, CURRENCY_RATES_TO_USD, List.lookup, h1, h2, h3, h4]

/-- Witness for C9 at the unsupported code "JPY". -/
theorem unknown_currency_rate_one_witness :
    "JPY" ∉ ["USD", "INR", "EUR", "GBP"] ∧
    lookupRate CURRENCY_RATES_TO_USD "JPY" = 1 :=
  ⟨by decide, unknown_currency_rate_one "JPY" (by decide)⟩

/-- C10: the converted reference-currency budget never influences the
response: two runs with the same form and the same oracle but different
(positive) rate tables produce identical results, prompt log included. -/
theorem rate_table_noninterference (llm : String → LLMResult) (form : TripForm)
    (r1 r2 : List (String × ℚ))
    (h1 : ∀ p ∈ r1, 0 < p.2) (h2 : ∀ p ∈ r2, 0 < p.2) :
    generateCore r1 llm form = generateCore r2 llm form := rfl

/-- Witness for C10: the app's table against a table with a doubled USD
rate, on a concrete request. -/
theorem rate_table_noninterference_witness :
    (∀ p ∈ CURRENCY_RATES_TO_USD, 0 < p.2) ∧
    (∀ p ∈ [("USD", (2 : ℚ))], 0 < p.2) ∧
    generateCore CURRENCY_RATES_TO_USD (fun _ => .exn)
        ⟨some "Lagos", 500, "USD", 2, 1, 0, some "2026-07-01", "domestic", ""⟩
      = generateCore [("USD", 2)] (fun _ => .exn)
        ⟨some "Lagos", 500, "USD", 2, 1, 0, some "2026-07-01", "domestic", ""⟩ :=
  ⟨by norm_num [CURRENCY_RATES_TO_USD], by norm_num,
    rate_table_noninterference (fun _ => .exn)
      ⟨some "Lagos", 500, "USD", 2, 1, 0, some "2026-07-01", "domestic", ""⟩
      CURRENCY_RATES_TO_USD [("USD", 2)]
      (by norm_num [CURRENCY_RATES_TO_USD]) (by norm_num)⟩

/-- C4: a request whose budget is zero or negative gets the 400 validation
message and no prompt is issued to the model. -/
theorem nonpositive_budget_rejected (llm : String → LLMResult) (form : TripForm)
    (h : form.budget ≤ 0) :
    (generate llm form).1 = .badRequest validationErrorMsg ∧
    (generate llm form).2 = [] := by
  have hinv : formInvalid form = true := by
    simp only [formInvalid, Bool.or_eq_true, decide_eq_true_eq]
    tauto
  unfold generate generateCore
  rw [hinv]
  exact ⟨rfl, rfl⟩

/-- Witness for C4 at budget 0. -/
theorem nonpositive_budget_rejected_witness :
    ((⟨some "Paris", 0, "USD", 3, 1, 1, some "2026-03-01", "domestic", ""⟩ :
        TripForm).budget ≤ 0) ∧
    (generate (fun _ => .exn)
        ⟨some "Paris", 0, "USD", 3, 1, 1, some "2026-03-01", "domestic", ""⟩).1
      = .badRequest validationErrorMsg ∧
    (generate (fun _ => .exn)
        ⟨some "Paris", 0, "USD", 3, 1, 1, some "2026-03-01", "domestic", ""⟩).2
      = [] := by
  refine ⟨by norm_num, ?_, ?_⟩
  · exact (nonpositive_budget_rejected _ _ (by norm_num)).1
  · exact (nonpositive_budget_rejected _ _ (by norm_num)).2

/-- C5: a request that passes validation gets a JSON object whose keys are
exactly high_level_plan, daily_itinerary, dining_recommendations,
packing_list, fun_fact and maps_link, in that order; every value is a
`String` by the type of `GenerateResult.okJson`. -/
theorem valid_request_keys (llm : String → LLMResult) (form : TripForm)
    (h : formInvalid form = false) :
    ∃ fields : List (String × String),
      (generate llm form).1 = .okJson fields ∧
      fields.map Prod.fst =
        ["high_level_plan", "daily_itinerary", "dining_recommendations",
         "packing_list", "fun_fact", "maps_link"] := by
  unfold generate generateCore
  rw [h]
  exact ⟨_, rfl, rfl⟩

/-- Witness for C5 on a concrete valid request. -/
theorem valid_request_keys_witness :
    formInvalid
        ⟨some "Kyoto", 1200, "USD", 4, 2, 1, some "2026-04-10", "international", ""⟩
      = false ∧
    ∃ fields : List (String × String),
      (generate (fun _ => .ok "text")
          ⟨some "Kyoto", 1200, "USD", 4, 2, 1, some "2026-04-10", "international",
            ""⟩).1 = .okJson fields ∧
      fields.map Prod.fst =
        ["high_level_plan", "daily_itinerary", "dining_recommendations",
         "packing_list", "fun_fact", "maps_link"] :=
  ⟨by decide, valid_request_keys (fun _ => .ok "text") _ (by decide)⟩

/-- C2 as stated is false: the fixed API-failure fallback text is not
"malformed" for the parser — split on `'|'` it yields one non-blank segment,
namely itself — so when the location-extraction call fails, the response's
maps_link is a non-empty URL embedding the fallback text. -/
theorem fallback_maps_link_nonempty :
    parse_locations apiErrorFallback = [apiErrorFallback] ∧
    (runChain (fun _ => .exn) "Paris" "trip details" "USD").1.maps_link ≠ "" := by
  decide

/-- C2 amended: when the location-extraction reply parses to no place names
(for example the empty string, or a string holding only delimiters and
whitespace), the maps_link in the chain's output is exactly the empty
string. -/
theorem empty_parse_empty_maps_link (llm : String → LLMResult)
    (city ctx currency : String)
    (h : parse_locations (get_llm_response llm
        (locPrompt (runChain llm city ctx currency).1.daily_itinerary)) = []) :
    (runChain llm city ctx currency).1.maps_link = "" := by
  have heq : (runChain llm city ctx currency).1.maps_link
      = generate_google_maps_link city (parse_locations (get_llm_response llm
          (locPrompt (runChain llm city ctx currency).1.daily_itinerary))) := rfl
  rw [heq, h]
  rfl

/-- Witness for the amended C2: an oracle answering the empty string. -/
theorem empty_parse_empty_maps_link_witness :
    parse_locations (get_llm_response (fun _ => .ok "")
      (locPrompt
        (runChain (fun _ => .ok "") "Rome" "trip context" "USD").1.daily_itinerary))
      = [] ∧
    (runChain (fun _ => .ok "") "Rome" "trip context" "USD").1.maps_link = "" :=
  ⟨by decide,
    empty_parse_empty_maps_link (fun _ => .ok "") "Rome" "trip context" "USD"
      (by decide)⟩

/-- A model call that raises is replaced by the fixed API-error fallback. -/
theorem get_llm_response_exn (llm : String → LLMResult) (p : String)
    (h : llm p = .exn) : get_llm_response llm p = apiErrorFallback := by
  simp [get_llm_response, h]

/-- C3: failures are caught per prompt: all six prompts are always issued
(the log has length 6 for every oracle); when a given call raises, only that
section's text becomes the fixed fallback; and a later prompt that
interpolates the failed section (the day-by-day prompt interpolating the
high-level plan, the location prompt interpolating the day-by-day itinerary)
embeds the fallback text unchanged. -/
theorem chain_failure_isolation (llm : String → LLMResult)
    (city ctx currency : String) :
    (runChain llm city ctx currency).2.length = 6 ∧
    (runChain llm city ctx currency).2.getD 0 "" = hlPrompt ctx currency ∧
    (llm (hlPrompt ctx currency) = .exn →
      (runChain llm city ctx currency).1.high_level_plan = apiErrorFallback ∧
      (runChain llm city ctx currency).2.getD 1 ""
        = diPrompt apiErrorFallback ctx currency) ∧
    (llm ((runChain llm city ctx currency).2.getD 1 "") = .exn →
      (runChain llm city ctx currency).1.daily_itinerary = apiErrorFallback ∧
      (runChain llm city ctx currency).2.getD 5 "" = locPrompt apiErrorFallback) ∧
    (llm (dinePrompt city ctx currency) = .exn →
      (runChain llm city ctx currency).1.dining_recommendations
        = apiErrorFallback) ∧
    (llm (packPrompt ctx) = .exn →
      (runChain llm city ctx currency).1.packing_list = apiErrorFallback) ∧
    (llm (ffPrompt city) = .exn →
      (runChain llm city ctx currency).1.fun_fact = apiErrorFallback) ∧
    (llm ((runChain llm city ctx currency).2.getD 5 "") = .exn →
      (runChain llm city ctx currency).1.maps_link
        = generate_google_maps_link city (parse_locations apiErrorFallback)) := by
  refine ⟨rfl, rfl, ?_, ?_, ?_, ?_, ?_, ?_⟩
  · intro h
    exact ⟨get_llm_response_exn llm _ h,
      show diPrompt (get_llm_response llm (hlPrompt ctx currency)) ctx currency
          = diPrompt apiErrorFallback ctx currency by
        rw [get_llm_response_exn llm _ h]⟩
  · intro h
    have h' : llm (diPrompt (get_llm_response llm (hlPrompt ctx currency)) ctx
        currency) = .exn := h
    exact ⟨get_llm_response_exn llm _ h',
      show locPrompt (get_llm_response llm
            (diPrompt (get_llm_response llm (hlPrompt ctx currency)) ctx currency))
          = locPrompt apiErrorFallback by
        rw [get_llm_response_exn llm _ h']⟩
  · intro h
    exact get_llm_response_exn llm _ h
  · intro h
    exact get_llm_response_exn llm _ h
  · intro h
    exact get_llm_response_exn llm _ h
  · intro h
    have h' : llm (locPrompt (get_llm_response llm
        (diPrompt (get_llm_response llm (hlPrompt ctx currency)) ctx currency)))
        = .exn := h
    show generate_google_maps_link city (parse_locations (get_llm_response llm
        (locPrompt (get_llm_response llm
          (diPrompt (get_llm_response llm (hlPrompt ctx currency)) ctx currency)))))
        = generate_google_maps_link city (parse_locations apiErrorFallback)
    rw [get_llm_response_exn llm _ h']

/-- Witness for C3 with an oracle that raises on every prompt. -/
theorem chain_failure_isolation_witness :
    (fun _ => LLMResult.exn) (hlPrompt "trip ctx" "USD") = LLMResult.exn ∧
    (runChain (fun _ => .exn) "Oslo" "trip ctx" "USD").2.length = 6 ∧
    (runChain (fun _ => .exn) "Oslo" "trip ctx" "USD").1.high_level_plan
      = apiErrorFallback ∧
    (runChain (fun _ => .exn) "Oslo" "trip ctx" "USD").1.maps_link
      = generate_google_maps_link "Oslo" (parse_locations apiErrorFallback) := by
  obtain ⟨a, b, c, d, e, f, g, h⟩ :=
    chain_failure_isolation (fun _ => .exn) "Oslo" "trip ctx" "USD"
  exact ⟨rfl, a, (c rfl).1, h rfl⟩

/-- C7 as stated is false: validation only bounds the sum of the traveler
counts, so a request with males = -5 and females = 6 is accepted even though
an individual count is negative. -/
theorem negative_traveler_count_accepted :
    (generate (fun _ => .exn)
        ⟨some "Paris", 100, "USD", 3, -5, 6, some "2026-03-01", "domestic",
          ""⟩).1.isBad = false ∧
    (⟨some "Paris", 100, "USD", 3, -5, 6, some "2026-03-01", "domestic", ""⟩ :
        TripForm).males < 0 := by
  decide

/-- C7 amended: every accepted request (no 400 answer) has a present,
non-empty city and journey date, a positive budget, positive days, and a
positive SUM of the traveler counts — individual counts are not validated. -/
theorem accepted_request_invariant (llm : String → LLMResult) (form : TripForm)
    (h : (generate llm form).1.isBad = false) :
    form.city ≠ none ∧ form.city ≠ some "" ∧ 0 < form.budget ∧ 0 < form.days ∧
    0 < form.males + form.females ∧ form.journey_date ≠ none ∧
    form.journey_date ≠ some "" := by
  have hinv : formInvalid form = false := by
    by_contra hc
    rw [Bool.not_eq_false] at hc
    have hbad : (generate llm form).1 = .badRequest validationErrorMsg := by
      unfold generate generateCore
      rw [hc]
      rfl
    rw [hbad] at h
    simp [GenerateResult.isBad] at h
  simp only [formInvalid, Bool.or_eq_false_iff, decide_eq_false_iff_not,
    not_le] at hinv
  obtain ⟨⟨⟨⟨hcity, hbudget⟩, hdays⟩, hppl⟩, hdate⟩ := hinv
  refine ⟨?_, ?_, hbudget, hdays, hppl, ?_, ?_⟩
  · intro hc; rw [hc] at hcity; simp [optBlank] at hcity
  · intro hc; rw [hc] at hcity; simp [optBlank] at hcity
  · intro hc; rw [hc] at hdate; simp [optBlank] at hdate
  · intro hc; rw [hc] at hdate; simp [optBlank] at hdate

/-- Witness for the amended C7 on a concrete accepted request. -/
theorem accepted_request_invariant_witness :
    (generate (fun _ => .ok "t")
        ⟨some "Lima", 900, "EUR", 5, 2, 2, some "2026-05-01", "international",
          ""⟩).1.isBad = false ∧
    ((some "Lima" : Option String) ≠ none ∧ (some "Lima" : Option String) ≠ some ""
      ∧ (0 : ℚ) < 900 ∧ (0 : Int) < 5 ∧ (0 : Int) < 2 + 2 ∧
      (some "2026-05-01" : Option String) ≠ none ∧
      (some "2026-05-01" : Option String) ≠ some "") :=
  ⟨by decide,
    accepted_request_invariant (fun _ => .ok "t")
      ⟨some "Lima", 900, "EUR", 5, 2, 2, some "2026-05-01", "international", ""⟩
      (by decide)⟩
